import Mathlib

/-!
Shallow embedding of the task orchestration and messaging core of the
multi-agent collaborative task system.

The embedding translates, field by field and branch by branch, the Python
classes `TaskManager` (src/core/task_manager.py), `CommunicationManager`
(src/core/communication.py) and the phase-planning part of `PlannerAgent`
(src/agents/planner.py).  Python dictionaries become association lists with
insertion-order semantics, `asyncio.PriorityQueue` becomes a list with a
pop-minimum operation (heapq pops the lexicographically least tuple),
`asyncio.Queue` becomes a FIFO list, `datetime` timestamps become natural
numbers, and nondeterministic inputs (uuid4 ids, wall-clock readings) become
explicit parameters.  Logging calls and listener notification are side
effects with no influence on the modelled state and are omitted.
-/

namespace MAS

/-- Python dictionary assignment `m[k] = v` on an insertion-ordered
association list: replace the value if the key is present, otherwise append
the new binding at the end. -/
def dictSet {β : Type} (m : List (String × β)) (k : String) (v : β) :
    List (String × β) :=
  if m.any (fun p => p.1 = k) then
    m.map (fun p => if p.1 = k then (k, v) else p)
  else
    m ++ [(k, v)]

/-- The `TaskStatus` enum from src/core/task_manager.py. -/
inductive TaskStatus where
  | pending
  | planning
  | executing
  | monitoring
  | completed
  | failed
  | cancelled
  | paused
deriving DecidableEq, Repr

/-- The `TaskPriority` enum from src/core/task_manager.py. -/
inductive TaskPriority where
  | low
  | normal
  | high
  | urgent
deriving DecidableEq, Repr

/-- Numeric values of the `TaskPriority` enum: LOW = 1, NORMAL = 2,
HIGH = 3, URGENT = 4. -/
def TaskPriority.value : TaskPriority → Nat
  | .low => 1
  | .normal => 2
  | .high => 3
  | .urgent => 4

/-- The `TaskInfo` dataclass.  `assigned_agents`, `subtasks`,
`execution_plan`, `results` and `metadata` are opaque payloads never read by
the scheduling logic the claims are about and are left out; timestamps are
naturals, absent ones are `none`. -/
structure TaskInfo where
  id : String
  type : String := ""
  name : String := ""
  description : String := ""
  priority : TaskPriority := .normal
  status : TaskStatus := .pending
  created_at : Nat := 0
  started_at : Option Nat := none
  completed_at : Option Nat := none
  error : Option String := none
  retry_count : Nat := 0
  max_retries : Nat := 3
  timeout : Option Nat := none
deriving DecidableEq, Repr

/-- The mutable state of a `TaskManager`: the `tasks` dict, the
`task_queue` priority queue (as the multiset of its `(priority.value, id)`
entries) and the `stats` counters.  `active_tasks` is an integer because
`update_task_status` decrements it. -/
structure TaskManagerState where
  tasks : List (String × TaskInfo) := []
  task_queue : List (Nat × String) := []
  stats_total_tasks : Nat := 0
  stats_completed_tasks : Nat := 0
  stats_failed_tasks : Nat := 0
  stats_active_tasks : Int := 0
deriving DecidableEq, Repr

/-- Model of `TaskManager.__init__`: empty task dict, empty priority queue, zeroed
statistics.  The constructor takes no store argument and loads nothing. -/
def TaskManagerState.initState : TaskManagerState := {}

/-- Model of `TaskManager.create_task`.  The Python method builds a fresh `TaskInfo`
(uuid id, `created_at = now`) from its arguments; here the built record is
the argument.  It stores the task, bumps `total_tasks` and `active_tasks`,
puts `(priority.value, id)` on the priority queue and returns the id. -/
def create_task (st : TaskManagerState) (task : TaskInfo) :
    String × TaskManagerState :=
  (task.id,
    { st with
      tasks := dictSet st.tasks task.id task
      stats_total_tasks := st.stats_total_tasks + 1
      stats_active_tasks := st.stats_active_tasks + 1
      task_queue := st.task_queue ++ [(task.priority.value, task.id)] })

/-- Model of `TaskManager.update_task_status`.  An unknown id returns with no state
change and no signal (the Python method returns `None` either way).  The
requested status is stored unconditionally; on `EXECUTING` with no
`started_at` the start time is recorded; on a terminal status the completion
time and the aggregate counters are updated; a truthy `error` (non-`None`
and non-empty, by Python truthiness) is stored. -/
def update_task_status (st : TaskManagerState) (task_id : String)
    (status : TaskStatus) (error : Option String) (now : Nat) :
    TaskManagerState :=
  match st.tasks.lookup task_id with
  | none => st
  | some task =>
    let task := { task with status := status }
    let (task, st) :=
      if status = TaskStatus.executing ∧ task.started_at = none then
        ({ task with started_at := some now }, st)
      else if status ∈ [TaskStatus.completed, TaskStatus.failed,
          TaskStatus.cancelled] then
        ({ task with completed_at := some now },
          { st with
            stats_active_tasks := st.stats_active_tasks - 1
            stats_completed_tasks := st.stats_completed_tasks +
              (if status = TaskStatus.completed then 1 else 0)
            stats_failed_tasks := st.stats_failed_tasks +
              (if status = TaskStatus.failed then 1 else 0) })
      else
        (task, st)
    let task :=
      match error with
      | some e => if e = "" then task else { task with error := some e }
      | none => task
    { st with tasks := dictSet st.tasks task_id task }

/-- Model of `TaskManager.cancel_task`: returns `False` when the task is unknown or
already terminal, otherwise transitions it to `CANCELLED` through
`update_task_status` and returns `True`. -/
def cancel_task (st : TaskManagerState) (task_id : String) (now : Nat) :
    Bool × TaskManagerState :=
  match st.tasks.lookup task_id with
  | none => (false, st)
  | some task =>
    if task.status ∈ [TaskStatus.completed, TaskStatus.failed,
        TaskStatus.cancelled] then
      (false, st)
    else
      (true, update_task_status st task_id TaskStatus.cancelled none now)

/-- Model of `TaskManager.retry_task`: returns `False` when the task is unknown, not
`FAILED`, or `retry_count >= max_retries`; otherwise increments
`retry_count`, resets the status to `PENDING`, clears `error` and re-puts
`(priority.value, id)` on the queue. -/
def retry_task (st : TaskManagerState) (task_id : String) :
    Bool × TaskManagerState :=
  match st.tasks.lookup task_id with
  | none => (false, st)
  | some task =>
    if task.status ≠ TaskStatus.failed then (false, st)
    else if task.retry_count ≥ task.max_retries then (false, st)
    else
      let task := { task with
        retry_count := task.retry_count + 1
        status := TaskStatus.pending
        error := none }
      (true,
        { st with
          tasks := dictSet st.tasks task_id task
          task_queue := st.task_queue ++ [(task.priority.value, task_id)] })

/-- Model of `asyncio.PriorityQueue.get`: the heap yields its lexicographically least
`(priority_value, task_id)` tuple (heapq compares tuples componentwise, ties
on the integer falling through to the string). -/
def entryLtb (e f : Nat × String) : Bool :=
  e.1 < f.1 || (e.1 = f.1 && compare e.2 f.2 = Ordering.lt)

/-- The least entry of the queue, `none` when it is empty. -/
def queueMin (q : List (Nat × String)) : Option (Nat × String) :=
  q.foldl
    (fun acc e =>
      match acc with
      | none => some e
      | some m => if entryLtb e m then some e else acc)
    none

/-- One iteration of `TaskManager._task_processing_loop`: pop the least
queue entry; skip it when the task is gone or no longer `PENDING`; fail it
when its creation-time deadline has already elapsed (Python truthiness: a
`timeout` of `0` is falsy and disables the check); otherwise mark it
`EXECUTING` and hand it to `_execute_task` — the returned id is the task
dispatched this iteration, `none` when nothing was dispatched. -/
def process_next_task (st : TaskManagerState) (now : Nat) :
    Option String × TaskManagerState :=
  match queueMin st.task_queue with
  | none => (none, st)
  | some e =>
    let st := { st with task_queue := st.task_queue.erase e }
    match st.tasks.lookup e.2 with
    | none => (none, st)
    | some task =>
      if task.status ≠ TaskStatus.pending then (none, st)
      else
        match task.timeout with
        | some tmo =>
          if tmo ≠ 0 ∧ task.created_at + tmo < now then
            (none, update_task_status st e.2 TaskStatus.failed
              (some "任务超时") now)
          else
            (some e.2, update_task_status st e.2 TaskStatus.executing none now)
        | none =>
          (some e.2, update_task_status st e.2 TaskStatus.executing none now)

/-- The `MessageType` enum from src/core/communication.py. -/
inductive MessageType where
  | task_assignment
  | task_result
  | status_update
  | coordination
  | notification
  | error
  | heartbeat
deriving DecidableEq, Repr

/-- The `MessagePriority` enum from src/core/communication.py. -/
inductive MessagePriority where
  | low
  | normal
  | high
  | urgent
deriving DecidableEq, Repr

/-- Numeric values of the `MessagePriority` enum. -/
def MessagePriority.value : MessagePriority → Nat
  | .low => 1
  | .normal => 2
  | .high => 3
  | .urgent => 4

/-- The `Message` dataclass; `content` is an opaque payload modelled as a
string, `metadata` as a string association list, timestamps as naturals. -/
structure Message where
  id : String
  type : MessageType := .notification
  priority : MessagePriority := .normal
  sender : String := ""
  recipient : String := ""
  content : String := ""
  metadata : List (String × String) := []
  timestamp : Nat := 0
  expires_at : Option Nat := none
  retry_count : Nat := 0
  max_retries : Nat := 3
deriving DecidableEq, Repr

/-- The mutable state of a `CommunicationManager`: the per-agent
`message_queues` (each an `asyncio.Queue`, i.e. FIFO list), the
`message_history` list and the `stats` counters.  `active_agents` is an
integer because `unregister_agent` decrements it. -/
structure CommState where
  message_queues : List (String × List Message) := []
  message_history : List Message := []
  stats_messages_sent : Nat := 0
  stats_messages_received : Nat := 0
  stats_messages_failed : Nat := 0
  stats_active_agents : Int := 0
deriving DecidableEq, Repr

/-- Model of `CommunicationManager.__init__`: everything empty. -/
def CommState.initState : CommState := {}

/-- Model of `CommunicationManager.register_agent`: create the agent's queue when it
has none yet (a plain FIFO `asyncio.Queue`) and bump `active_agents`;
registering twice is a no-op. -/
def register_agent (st : CommState) (agent_id : String) : CommState :=
  if st.message_queues.any (fun p => p.1 = agent_id) then st
  else
    { st with
      message_queues := st.message_queues ++ [(agent_id, [])]
      stats_active_agents := st.stats_active_agents + 1 }

/-- Model of `CommunicationManager.send_message`.  Builds the `Message` (uuid id and
`datetime.now()` timestamp are the explicit `fresh_id` / `now` parameters,
`sender` is the literal `"system"`), appends it to `message_history`
unconditionally, then — only if the recipient has a queue — puts it on that
FIFO queue and bumps `messages_sent`, otherwise bumps `messages_failed`.
Either way the message id is returned. -/
def send_message (st : CommState) (recipient : String)
    (message_type : MessageType) (content : String)
    (priority : MessagePriority) (metadata : List (String × String))
    (expires_at : Option Nat) (fresh_id : String) (now : Nat) :
    String × CommState :=
  let message : Message :=
    { id := fresh_id
      type := message_type
      priority := priority
      sender := "system"
      recipient := recipient
      content := content
      metadata := metadata
      timestamp := now
      expires_at := expires_at }
  let st := { st with message_history := st.message_history ++ [message] }
  let st :=
    if st.message_queues.any (fun p => p.1 = recipient) then
      { st with
        message_queues := st.message_queues.map
          (fun p => if p.1 = recipient then (p.1, p.2 ++ [message]) else p)
        stats_messages_sent := st.stats_messages_sent + 1 }
    else
      { st with stats_messages_failed := st.stats_messages_failed + 1 }
  (message.id, st)

/-- The expiry test of `receive_message`:
`message.expires_at and message.expires_at < datetime.now()`. -/
def Message.isExpired (m : Message) (now : Nat) : Bool :=
  match m.expires_at with
  | some e => decide (e < now)
  | none => false

/-- Model of `CommunicationManager.receive_message`.  An unregistered agent gets
`None`.  Waiting on an empty queue blocks until a message arrives or the
optional timeout elapses (yielding `None`); the model collapses that wait to
`None` with no state change.  Otherwise the head of the FIFO queue is
removed; if its `expires_at` has passed it is dropped and `None` returned
without counting a delivery, else it is returned and `messages_received`
is bumped. -/
def receive_message (st : CommState) (agent_id : String) (now : Nat) :
    Option Message × CommState :=
  match st.message_queues.lookup agent_id with
  | none => (none, st)
  | some [] => (none, st)
  | some (message :: rest) =>
    let st := { st with
      message_queues := st.message_queues.map
        (fun p => if p.1 = agent_id then (p.1, rest) else p) }
    if message.isExpired now then (none, st)
    else (some message, { st with
      stats_messages_received := st.stats_messages_received + 1 })

/-- A subtask dict as consumed by `PlannerAgent._create_execution_plan`:
`id`, `dependencies` and the optional `priority` read via
`.get("priority", 5)`.  The `description`, agent-assignment and
`estimated_duration` entries do not influence phase construction. -/
structure Subtask where
  id : String
  dependencies : List String := []
  priority : Option Nat := none
deriving DecidableEq, Repr

/-- The sort key `x.get("priority", 5)`. -/
def Subtask.priorityKey (t : Subtask) : Nat := t.priority.getD 5

/-- Python `min(xs, key=...)`: the first element attaining the least key. -/
def pyMinBy (key : Subtask → Nat) : List Subtask → Option Subtask
  | [] => none
  | t :: ts =>
    some (ts.foldl (fun m x => if key x < key m then x else m) t)

/-- Stable ascending insertion used to model Python `sorted(xs, key=...)`:
the new element goes after every element of equal or smaller key. -/
def insertSorted (key : Subtask → Nat) (x : Subtask) :
    List Subtask → List Subtask
  | [] => [x]
  | y :: ys =>
    if key x < key y then x :: y :: ys else y :: insertSorted key x ys

/-- Python `sorted(xs, key=...)` (stable, ascending). -/
def pySorted (key : Subtask → Nat) (l : List Subtask) : List Subtask :=
  l.foldl (fun acc x => insertSorted key x acc) []

/-- The body of the `while remaining_tasks` loop of
`PlannerAgent._topological_sort`, with fuel for termination (each pass
removes exactly one task, so `remaining.length` fuel suffices): collect the
tasks whose dependencies are all among the ids already emitted; if there are
none (cycle), fall back to the remaining tasks sorted by priority; emit the
first minimal-priority task of the chosen pool and drop it from
`remaining` (Python `list.remove`, first occurrence). -/
def topoGo (fuel : Nat) (remaining sorted_tasks : List Subtask) :
    List Subtask :=
  match fuel with
  | 0 => sorted_tasks
  | fuel + 1 =>
    if remaining.isEmpty then sorted_tasks
    else
      let completed_ids := sorted_tasks.map (fun t => t.id)
      let ready_tasks := remaining.filter
        (fun t => t.dependencies.all (fun d => completed_ids.contains d))
      let ready :=
        if ready_tasks.isEmpty then pySorted Subtask.priorityKey remaining
        else ready_tasks
      match pyMinBy Subtask.priorityKey ready with
      | none => sorted_tasks
      | some next =>
        topoGo fuel (remaining.erase next) (sorted_tasks ++ [next])

/-- Model of `PlannerAgent._topological_sort`. -/
def topological_sort (subtasks : List Subtask) : List Subtask :=
  topoGo subtasks.length subtasks []

/-- One phase entry of the execution plan dict. -/
structure Phase where
  phase : Nat
  subtasks : List String
  parallel : Bool
deriving DecidableEq, Repr

/-- The execution plan dict; the `estimated_total_duration` aggregate is a
fold over durations no claim mentions and is not modelled. -/
structure ExecutionPlan where
  phases : List Phase
  total_phases : Nat
deriving DecidableEq, Repr

/-- The body of the `for subtask in sorted_subtasks` loop of
`PlannerAgent._create_execution_plan`: accumulator is
`(execution_phases, current_phase, current_dependencies)`.  A subtask whose
dependencies are all in `current_dependencies` joins the current phase,
otherwise the current phase (if non-empty) is closed and a new one starts;
then — unconditionally — the subtask's own id is added to
`current_dependencies`. -/
def planStep (acc : List Phase × List String × List String)
    (subtask : Subtask) : List Phase × List String × List String :=
  let (execution_phases, current_phase, current_dependencies) := acc
  let (execution_phases, current_phase) :=
    if subtask.dependencies.all (fun d => current_dependencies.contains d)
    then
      (execution_phases, current_phase ++ [subtask.id])
    else
      if current_phase.isEmpty then (execution_phases, [subtask.id])
      else
        (execution_phases ++
          [{ phase := execution_phases.length + 1
             subtasks := current_phase
             parallel := decide (current_phase.length > 1) }],
          [subtask.id])
  let current_dependencies :=
    if current_dependencies.contains subtask.id then current_dependencies
    else current_dependencies ++ [subtask.id]
  (execution_phases, current_phase, current_dependencies)

/-- Model of `PlannerAgent._create_execution_plan`: topologically sort the subtasks,
fold them into phases, close the trailing phase, and return the phases with
their count. -/
def create_execution_plan (subtasks : List Subtask) : ExecutionPlan :=
  let sorted_subtasks := topological_sort subtasks
  let (execution_phases, current_phase, _) :=
    sorted_subtasks.foldl planStep ([], [], [])
  let execution_phases :=
    if current_phase.isEmpty then execution_phases
    else
      execution_phases ++
        [{ phase := execution_phases.length + 1
           subtasks := current_phase
           parallel := decide (current_phase.length > 1) }]
  { phases := execution_phases, total_phases := execution_phases.length }

/-- The `BackgroundTask` dataclass of src/core/background_executor.py —
the record persisted in the SQLite `background_tasks` table.  `status` is a
free string there ("pending", "running", "completed", "failed",
"cancelled"); `data`, `result` and `metadata` are opaque JSON payloads
modelled as strings; timestamps are naturals. -/
structure BackgroundTask where
  id : String
  name : String := ""
  task_type : String := ""
  data : String := ""
  status : String := "pending"
  priority : Int := 1
  created_at : Nat := 0
  started_at : Option Nat := none
  completed_at : Option Nat := none
  result : Option String := none
  error : Option String := none
  retry_count : Nat := 0
  max_retries : Nat := 3
  timeout : Option Nat := none
  metadata : String := ""
deriving DecidableEq, Repr

/-- The in-memory state of a `BackgroundExecutor` touched by startup
recovery: the `tasks` dict and the `task_queue` priority queue (as the
multiset of its `(priority, id)` entries), plus the `stats` counters,
which `_load_persisted_tasks` never touches. -/
structure BackgroundExecutorState where
  tasks : List (String × BackgroundTask) := []
  task_queue : List (Int × String) := []
  stats_total_tasks : Nat := 0
  stats_completed_tasks : Nat := 0
  stats_failed_tasks : Nat := 0
  stats_active_tasks : Int := 0
deriving DecidableEq, Repr

/-- Model of `BackgroundExecutor.__init__`: empty dict, empty queue,
zeroed statistics. -/
def BackgroundExecutorState.initState : BackgroundExecutorState := {}

/-- The `ORDER BY priority DESC, created_at ASC` of the recovery SELECT:
row `a` is fetched no later than row `b`.  SQLite leaves the relative
order of rows equal on both keys unspecified; the model refines it to the
stable order of `List.insertionSort`. -/
def sqlRowOrder (a b : BackgroundTask) : Prop :=
  b.priority < a.priority ∨
    (a.priority = b.priority ∧ a.created_at ≤ b.created_at)

instance instDecRelSqlRowOrder : DecidableRel sqlRowOrder := fun a b => by
  unfold sqlRowOrder
  infer_instance

/-- The body of the `for row in rows` loop of
`BackgroundExecutor._load_persisted_tasks`: the rebuilt record is stored
in the `tasks` dict with its persisted status, and it is re-enqueued —
once, at its stored priority — only when that status is `"pending"`. -/
def loadStep (st : BackgroundExecutorState) (task : BackgroundTask) :
    BackgroundExecutorState :=
  let st := { st with tasks := dictSet st.tasks task.id task }
  if task.status = "pending" then
    { st with task_queue := st.task_queue ++ [(task.priority, task.id)] }
  else st

/-- Model of `BackgroundExecutor._load_persisted_tasks`: SELECT every row
whose status is `'pending'` or `'running'` (ordered by priority
descending then creation time ascending) and run the load loop over the
fetched rows.  Row deserialization (JSON and ISO-timestamp parsing) is
the identity here because the store holds the records directly. -/
def load_persisted_tasks (st : BackgroundExecutorState)
    (stored_rows : List BackgroundTask) : BackgroundExecutorState :=
  let rows := List.insertionSort sqlRowOrder
    (stored_rows.filter
      (fun r => r.status = "pending" ∨ r.status = "running"))
  rows.foldl loadStep st

/-- Model of the recovery part of `BackgroundExecutor.start`: initialize
the database (no effect on the in-memory state) and load the persisted
tasks into the fresh state built by `__init__`. -/
def background_executor_startup (stored_rows : List BackgroundTask) :
    BackgroundExecutorState :=
  load_persisted_tasks BackgroundExecutorState.initState stored_rows

/-! ### Concrete scenario states used by the witnesses and counterexamples -/

/-- C1 scenario: task "B" (priority LOW) created first, then task "A"
(priority URGENT), both pending with no timeout. -/
def c1_state : TaskManagerState :=
  (create_task
    (create_task TaskManagerState.initState
      { id := "B", priority := .low, created_at := 0 }).2
    { id := "A", priority := .urgent, created_at := 1 }).2

/-- C2 scenario: the subtask set of the spec's phase-planning test,
`a: deps=[]`, `b: deps=[a]`, `c: deps=[a]`, `d: deps=[b,c]`. -/
def c2_subtasks : List Subtask :=
  [ { id := "a" },
    { id := "b", dependencies := ["a"] },
    { id := "c", dependencies := ["a"] },
    { id := "d", dependencies := ["b", "c"] } ]

/-- C3 scenario: the durable store's `pending` record. -/
def c3_pending_row : BackgroundTask :=
  { id := "rec-pending", name := "p", task_type := "demo"
    status := "pending", priority := 1, created_at := 0 }

/-- C3 scenario: the durable store's record that was `running`
(the spec's "executing") when the process died. -/
def c3_running_row : BackgroundTask :=
  { id := "rec-running", name := "r", task_type := "demo"
    status := "running", priority := 2, created_at := 1
    started_at := some 5 }

/-- C3 scenario: the durable store of the spec's crash-recovery test, one
`pending` record and one `running` record. -/
def c3_store : List BackgroundTask := [c3_pending_row, c3_running_row]

/-- C4 scenario: agent "a" registered and sent one message whose
`expires_at = 5` lies in the past of the receive time 10. -/
def c4_state : CommState :=
  (send_message (register_agent CommState.initState "a")
    "a" .notification "old" .normal [] (some 5) "m1" 0).2

/-- The message sitting at the head of agent "a"'s mailbox in `c4_state`. -/
def c4_message : Message :=
  { id := "m1", type := .notification, priority := .normal
    sender := "system", recipient := "a", content := "old"
    metadata := [], timestamp := 0, expires_at := some 5 }

/-- C5 scenario: a failed task with one retry spent out of three. -/
def c5_task : TaskInfo :=
  { id := "t", priority := .high, status := .failed
    retry_count := 1, max_retries := 3, error := some "boom" }

/-- Task manager holding `c5_task`. -/
def c5_state : TaskManagerState := { tasks := [("t", c5_task)] }

/-- C6 counterexample scenario: a task already `COMPLETED`, with both of
its timestamps recorded. -/
def c6_task : TaskInfo :=
  { id := "t", status := .completed
    started_at := some 1, completed_at := some 2 }

/-- Task manager holding `c6_task`. -/
def c6_state : TaskManagerState := { tasks := [("t", c6_task)] }

/-- C6 witness scenario: a pending task about to be completed. -/
def c6w_task : TaskInfo := { id := "t", status := .executing, started_at := some 3 }

/-- Task manager holding `c6w_task`. -/
def c6w_state : TaskManagerState := { tasks := [("t", c6w_task)], stats_active_tasks := 1 }

/-- C7 counterexample scenario: a task already `CANCELLED`. -/
def c7_task : TaskInfo := { id := "t", status := .cancelled, completed_at := some 2 }

/-- Task manager holding `c7_task`. -/
def c7_state : TaskManagerState := { tasks := [("t", c7_task)] }

/-- C7 witness scenario: a task already `COMPLETED` (terminal). -/
def c7w_task : TaskInfo := { id := "t", status := .completed, completed_at := some 2 }

/-- Task manager holding `c7w_task`. -/
def c7w_state : TaskManagerState := { tasks := [("t", c7w_task)] }

/-- C9 scenario: agent "a" receives a LOW-priority message first, then an
URGENT one, and neither has been consumed yet. -/
def c9_state : CommState :=
  (send_message
    (send_message (register_agent CommState.initState "a")
      "a" .notification "first" .low [] none "m1" 0).2
    "a" .notification "second" .urgent [] none "m2" 1).2

/-- The LOW-priority message of `c9_state` (sent first). -/
def c9_low : Message :=
  { id := "m1", type := .notification, priority := .low
    sender := "system", recipient := "a", content := "first"
    metadata := [], timestamp := 0 }

/-- The URGENT message of `c9_state` (sent second). -/
def c9_urgent : Message :=
  { id := "m2", type := .notification, priority := .urgent
    sender := "system", recipient := "a", content := "second"
    metadata := [], timestamp := 1 }

/-- C10 scenario: a failed task that has been through one full run, so
both `started_at` and `completed_at` are recorded. -/
def c10_task : TaskInfo :=
  { id := "t", type := "build", name := "n", priority := .normal
    status := .failed, created_at := 1, started_at := some 2
    completed_at := some 3, error := some "boom"
    retry_count := 0, max_retries := 3 }

/-- Task manager holding `c10_task` and one unrelated task. -/
def c10_state : TaskManagerState :=
  { tasks := [("t", c10_task), ("u", { id := "u", status := .pending })] }

/-! ### Association-list lemmas -/

theorem lookup_map_update {β : Type} (m : List (String × β)) (a : String)
    (f : β → β) :
    (m.map fun p => if p.1 = a then (p.1, f p.2) else p).lookup a =
      (m.lookup a).map f := by
  induction m with
  | nil => rfl
  | cons p t ih =>
    obtain ⟨k, v⟩ := p
    rw [List.map_cons]
    by_cases hk : k = a
    · subst hk
      rw [show (if ((k, v) : String × β).1 = k then ((k, v).1, f (k, v).2)
          else (k, v)) = (k, f v) from if_pos rfl]
      simp [List.lookup]
    · rw [show (if ((k, v) : String × β).1 = a then ((k, v).1, f (k, v).2)
          else (k, v)) = (k, v) from if_neg hk]
      have hak : (a == k) = false := by
        simp [beq_eq_false_iff_ne, Ne.symm hk]
      simp [List.lookup, hak, ih]

theorem lookup_map_replace {β : Type} (m : List (String × β)) (a : String)
    (w : β) :
    (m.map fun p => if p.1 = a then (p.1, w) else p).lookup a =
      (m.lookup a).map (fun _ => w) := by
  induction m with
  | nil => rfl
  | cons p t ih =>
    obtain ⟨k, v⟩ := p
    rw [List.map_cons]
    by_cases hk : k = a
    · subst hk
      rw [show (if ((k, v) : String × β).1 = k then ((k, v).1, w)
          else (k, v)) = (k, w) from if_pos rfl]
      simp [List.lookup]
    · rw [show (if ((k, v) : String × β).1 = a then ((k, v).1, w)
          else (k, v)) = (k, v) from if_neg hk]
      have hak : (a == k) = false := by
        simp [beq_eq_false_iff_ne, Ne.symm hk]
      simp [List.lookup, hak, ih]

theorem lookup_map_replace_ne {β : Type} (m : List (String × β))
    (a k' : String) (w : β) (h : k' ≠ a) :
    (m.map fun p => if p.1 = a then (p.1, w) else p).lookup k' =
      m.lookup k' := by
  induction m with
  | nil => rfl
  | cons p t ih =>
    obtain ⟨k, v⟩ := p
    rw [List.map_cons]
    by_cases hk : k = a
    · subst hk
      rw [show (if ((k, v) : String × β).1 = k then ((k, v).1, w)
          else (k, v)) = (k, w) from if_pos rfl]
      have hk' : (k' == k) = false := by
        simp [beq_eq_false_iff_ne, h]
      simp [List.lookup, hk', ih]
    · rw [show (if ((k, v) : String × β).1 = a then ((k, v).1, w)
          else (k, v)) = (k, v) from if_neg hk]
      by_cases hkk : k' = k
      · subst hkk
        simp [List.lookup]
      · have hk' : (k' == k) = false := by
          simp [beq_eq_false_iff_ne, hkk]
        simp [List.lookup, hk', ih]

theorem any_key_eq_lookup_isSome {β : Type} (m : List (String × β))
    (k : String) :
    (m.any fun p => p.1 = k) = (m.lookup k).isSome := by
  induction m with
  | nil => rfl
  | cons p t ih =>
    obtain ⟨a, v⟩ := p
    by_cases ha : a = k
    · subst ha
      simp [List.lookup]
    · have hka : (k == a) = false := by
        simp [beq_eq_false_iff_ne, Ne.symm ha]
      simp [List.lookup, ha, hka, ih]

theorem lookup_append_assoc {β : Type} (m l : List (String × β))
    (k : String) :
    (m ++ l).lookup k =
      match m.lookup k with
      | some v => some v
      | none => l.lookup k := by
  induction m with
  | nil => rfl
  | cons p t ih =>
    obtain ⟨a, v⟩ := p
    by_cases ha : k = a
    · subst ha
      simp [List.lookup]
    · have hka : (k == a) = false := by
        simp [beq_eq_false_iff_ne, ha]
      simp [List.lookup, hka, ih]

theorem lookup_map_dictSet {β : Type} (m : List (String × β)) (k : String)
    (v : β) :
    (m.map fun p => if p.1 = k then (k, v) else p).lookup k =
      (m.lookup k).map (fun _ => v) := by
  induction m with
  | nil => rfl
  | cons p t ih =>
    obtain ⟨a, b⟩ := p
    rw [List.map_cons]
    by_cases ha : a = k
    · subst ha
      rw [show (if ((a, b) : String × β).1 = a then (a, v)
          else (a, b)) = (a, v) from if_pos rfl]
      simp [List.lookup]
    · rw [show (if ((a, b) : String × β).1 = k then (k, v)
          else (a, b)) = (a, b) from if_neg ha]
      have hka : (k == a) = false := by
        simp [beq_eq_false_iff_ne, Ne.symm ha]
      simp [List.lookup, hka, ih]

theorem lookup_map_dictSet_ne {β : Type} (m : List (String × β))
    (k k' : String) (v : β) (h : k' ≠ k) :
    (m.map fun p => if p.1 = k then (k, v) else p).lookup k' =
      m.lookup k' := by
  induction m with
  | nil => rfl
  | cons p t ih =>
    obtain ⟨a, b⟩ := p
    rw [List.map_cons]
    by_cases ha : a = k
    · subst ha
      rw [show (if ((a, b) : String × β).1 = a then (a, v)
          else (a, b)) = (a, v) from if_pos rfl]
      have hk' : (k' == a) = false := by
        simp [beq_eq_false_iff_ne, h]
      simp [List.lookup, hk', ih]
    · rw [show (if ((a, b) : String × β).1 = k then (k, v)
          else (a, b)) = (a, b) from if_neg ha]
      by_cases hkk : k' = a
      · subst hkk
        simp [List.lookup]
      · have hk' : (k' == a) = false := by
          simp [beq_eq_false_iff_ne, hkk]
        simp [List.lookup, hk', ih]

theorem lookup_dictSet_self {β : Type} (m : List (String × β)) (k : String)
    (v : β) : (dictSet m k v).lookup k = some v := by
  unfold dictSet
  by_cases h : (m.any fun p => p.1 = k) = true
  · rw [if_pos h]
    have hs : (m.lookup k).isSome := by
      rw [← any_key_eq_lookup_isSome]; exact h
    obtain ⟨w, hw⟩ := Option.isSome_iff_exists.1 hs
    rw [lookup_map_dictSet, hw]
    rfl
  · rw [if_neg h]
    have hn : m.lookup k = none := by
      have hb := any_key_eq_lookup_isSome m k
      cases hl : m.lookup k with
      | none => rfl
      | some w => rw [hl] at hb; simp [hb] at h
    rw [lookup_append_assoc, hn]
    simp [List.lookup]

theorem lookup_dictSet_ne {β : Type} (m : List (String × β)) (k k' : String)
    (v : β) (h : k' ≠ k) :
    (dictSet m k v).lookup k' = m.lookup k' := by
  unfold dictSet
  by_cases hany : (m.any fun p => p.1 = k) = true
  · rw [if_pos hany]
    exact lookup_map_dictSet_ne m k k' v h
  · rw [if_neg hany]
    rw [lookup_append_assoc]
    cases hl : m.lookup k' with
    | some w => rfl
    | none =>
      have hk' : (k' == k) = false := by
        simp [beq_eq_false_iff_ne, h]
      simp [List.lookup, hk']

theorem mem_dictSet {β : Type} {m : List (String × β)} {k : String} {v : β}
    {p : String × β} (hp : p ∈ dictSet m k v) : p = (k, v) ∨ p ∈ m := by
  unfold dictSet at hp
  by_cases h : (m.any fun q => q.1 = k) = true
  · rw [if_pos h] at hp
    obtain ⟨q, hq, hqe⟩ := List.mem_map.1 hp
    by_cases hk : q.1 = k
    · left
      rw [← hqe]
      simp [hk]
    · right
      rw [← hqe]
      simpa [hk] using hq
  · rw [if_neg h] at hp
    rcases List.mem_append.1 hp with hm | hm
    · right; exact hm
    · left; simpa using hm

/-! ### Claim theorems -/

/-- C1: the scheduler dequeues the LOW-priority task "B" (enqueued first,
queue entry `(1, "B")`) and dispatches it before the URGENT task "A"
(queue entry `(4, "A")`), because `asyncio.PriorityQueue` pops the least
`priority.value` first while URGENT carries the largest value — the
opposite of the claimed urgent-before-low dispatch order. -/
theorem c1_low_dispatched_before_urgent :
    c1_state.task_queue = [(1, "B"), (4, "A")] ∧
    (process_next_task c1_state 2).1 = some "B" ∧
    (process_next_task (process_next_task c1_state 2).2 3).1 = some "A" ∧
    TaskPriority.low.value < TaskPriority.urgent.value := by
  refine ⟨rfl, rfl, rfl, by decide⟩

/-- C2: on the spec's own example `{a: deps=[]}, {b: deps=[a]},
{c: deps=[a]}, {d: deps=[b,c]}` the planner emits a single phase
`[a, b, c, d]` (marked parallel) instead of the claimed three phases
`{a}, {b,c}, {d}`: because each subtask's id is added to
`current_dependencies` as soon as it is placed, a topologically sorted
input never opens a second phase, so "d" shares a phase with its own
dependencies "b" and "c". -/
theorem c2_plan_collapses_to_one_phase :
    (create_execution_plan c2_subtasks).phases =
      [{ phase := 1, subtasks := ["a", "b", "c", "d"], parallel := true }] ∧
    (create_execution_plan c2_subtasks).total_phases = 1 := by
  refine ⟨by decide, by decide⟩

/-- C3 counterexample: starting the background executor over the durable
store of the spec's crash-recovery test (one `pending` record, one
`running` record), the `running` record is loaded into memory but keeps
status `"running"` — it is not treated as pending — and the rebuilt queue
holds only the pending record, so the record found executing is
schedulable zero times, not exactly once: it is lost rather than
re-dispatched. -/
theorem c3_running_record_lost :
    (background_executor_startup c3_store).task_queue =
      [((1 : Int), "rec-pending")] ∧
    ((background_executor_startup c3_store).tasks.lookup
      "rec-running").map BackgroundTask.status = some "running" ∧
    (background_executor_startup c3_store).task_queue.countP
      (fun e => e.2 == "rec-running") = 0 := by
  refine ⟨by decide, by decide, by decide⟩

/-- C6 counterexample: `update_task_status` performs no transition
validation — requesting the invalid transition `completed → executing`
on task "t" is applied (the stored status becomes `executing` and the
state changes) instead of being rejected with a signal distinct from an
unknown-id failure; the call returns nothing in either case. -/
theorem c6_invalid_transition_applied :
    ((update_task_status c6_state "t" TaskStatus.executing none 5).tasks.lookup
        "t").map TaskInfo.status = some TaskStatus.executing ∧
    update_task_status c6_state "t" TaskStatus.executing none 5 ≠ c6_state := by
  refine ⟨by decide, by decide⟩

/-- C7 counterexample: cancelling the already-cancelled task "t" returns
`false` — the same result as for an unknown id — not a no-op success; the
state is indeed left unchanged. -/
theorem c7_cancel_terminal_returns_false :
    (cancel_task c7_state "t" 9).1 = false ∧
    (cancel_task c7_state "t" 9).2 = c7_state := by
  refine ⟨by decide, by decide⟩

/-- C8 counterexample: a send to the unregistered recipient "ghost" still
returns the fresh message id (exactly as a successful send would, so the
result does not reveal the failure) and still appends the message to
`message_history`, so message state is changed by the failed send. -/
theorem c8_failed_send_observable_state :
    (send_message CommState.initState "ghost" MessageType.notification "hi"
      MessagePriority.normal [] none "m1" 0).1 = "m1" ∧
    ((send_message CommState.initState "ghost" MessageType.notification "hi"
      MessagePriority.normal [] none "m1" 0).2).message_history.length = 1 := by
  refine ⟨by decide, by decide⟩

/-- C9 counterexample: with the LOW-priority message "m1" sent before the
URGENT message "m2" and both pending in agent "a"'s mailbox, `receive`
returns the LOW message first — mailboxes are plain FIFO queues, so a
higher-priority message does not overtake a lower-priority one. -/
theorem c9_urgent_not_delivered_first :
    c9_state.message_queues.lookup "a" = some [c9_low, c9_urgent] ∧
    c9_low.priority = MessagePriority.low ∧
    c9_urgent.priority = MessagePriority.urgent ∧
    (receive_message c9_state "a" 2).1 = some c9_low := by
  refine ⟨by decide, rfl, rfl, by decide⟩

/-- C4: `receive_message` never returns a message whose `expires_at` has
passed: any returned message tests unexpired at the receive time; an
expired message at the head of the mailbox is dropped — removed from the
queue, not returned, and not counted in `messages_received`; and a message
whose `expires_at` lies before any time up to the receive time is never
the result of the call. -/
theorem c4_receive_never_delivers_expired (st : CommState) (agent_id : String)
    (now : Nat) :
    (∀ m : Message, (receive_message st agent_id now).1 = some m →
        m.isExpired now = false) ∧
    (∀ (m : Message) (rest : List Message),
        st.message_queues.lookup agent_id = some (m :: rest) →
        m.isExpired now = true →
        (receive_message st agent_id now).1 = none ∧
        ((receive_message st agent_id now).2).stats_messages_received =
          st.stats_messages_received ∧
        ((receive_message st agent_id now).2).message_queues.lookup agent_id =
          some rest) ∧
    (∀ (m : Message) (e t₀ : Nat),
        m.expires_at = some e → e < t₀ → t₀ ≤ now →
        (receive_message st agent_id now).1 ≠ some m) := by
  have key : ∀ m : Message, (receive_message st agent_id now).1 = some m →
      m.isExpired now = false := by
    intro m hm
    cases hq : st.message_queues.lookup agent_id with
    | none =>
      simp only [receive_message, hq] at hm
      exact absurd hm (by simp)
    | some q =>
      cases q with
      | nil =>
        simp only [receive_message, hq] at hm
        exact absurd hm (by simp)
      | cons m0 rest0 =>
        cases hex : m0.isExpired now with
        | true =>
          simp only [receive_message, hq, hex, if_true] at hm
          exact absurd hm (by simp)
        | false =>
          simp only [receive_message, hq, hex, Bool.false_eq_true,
            if_false] at hm
          simp only [Option.some.injEq] at hm
          rw [← hm]
          exact hex
  refine ⟨key, ?_, ?_⟩
  · intro m rest hq hex
    refine ⟨?_, ?_, ?_⟩
    · simp only [receive_message, hq, hex, if_true]
    · simp only [receive_message, hq, hex, if_true]
    · simp only [receive_message, hq, hex, if_true]
      have hmap := lookup_map_replace st.message_queues agent_id rest
      rw [hq] at hmap
      exact hmap
  · intro m e t₀ he hlt hle hm
    have hfalse := key m hm
    rw [Message.isExpired, he] at hfalse
    simp only [decide_eq_false_iff_not] at hfalse
    exact hfalse (lt_of_lt_of_le hlt hle)

/-- C4 witness: receiving from the mailbox of `c4_state`, whose head
message expired at time 5, at time 10 yields no message, leaves the
delivery counter unchanged and removes the expired message. -/
theorem c4_witness :
    (receive_message c4_state "a" 10).1 = none ∧
    ((receive_message c4_state "a" 10).2).stats_messages_received =
      c4_state.stats_messages_received ∧
    ((receive_message c4_state "a" 10).2).message_queues.lookup "a" =
      some [] :=
  (c4_receive_never_delivers_expired c4_state "a" 10).2.1 c4_message []
    (by decide) (by decide)

/-- C8 (amended): a `send_message` whose recipient has no registered
mailbox returns the fresh message id exactly as a successful send would
(the caller cannot see the failure in the result), increments
`messages_failed` and leaves every mailbox untouched — but it still
appends the message to `message_history`, so message state does change. -/
theorem c8_unregistered_send (st : CommState) (recipient : String)
    (message_type : MessageType) (content : String)
    (priority : MessagePriority) (metadata : List (String × String))
    (expires_at : Option Nat) (fresh_id : String) (now : Nat)
    (h : (st.message_queues.any fun p => p.1 = recipient) = false) :
    (send_message st recipient message_type content priority metadata
      expires_at fresh_id now).1 = fresh_id ∧
    ((send_message st recipient message_type content priority metadata
      expires_at fresh_id now).2).stats_messages_failed =
      st.stats_messages_failed + 1 ∧
    ((send_message st recipient message_type content priority metadata
      expires_at fresh_id now).2).stats_messages_sent =
      st.stats_messages_sent ∧
    ((send_message st recipient message_type content priority metadata
      expires_at fresh_id now).2).message_queues = st.message_queues ∧
    ((send_message st recipient message_type content priority metadata
      expires_at fresh_id now).2).message_history =
      st.message_history ++
        [{ id := fresh_id, type := message_type, priority := priority,
           sender := "system", recipient := recipient, content := content,
           metadata := metadata, timestamp := now,
           expires_at := expires_at }] := by
  refine ⟨?_, ?_, ?_, ?_, ?_⟩ <;>
    simp only [send_message, h, Bool.false_eq_true, if_false]

/-- C8 witness: sending to "ghost" on the empty communication state. -/
theorem c8_witness :
    (send_message CommState.initState "ghost" MessageType.error "x"
      MessagePriority.high [] none "mid" 3).1 = "mid" ∧
    ((send_message CommState.initState "ghost" MessageType.error "x"
      MessagePriority.high [] none "mid" 3).2).stats_messages_failed =
      CommState.initState.stats_messages_failed + 1 ∧
    ((send_message CommState.initState "ghost" MessageType.error "x"
      MessagePriority.high [] none "mid" 3).2).stats_messages_sent =
      CommState.initState.stats_messages_sent ∧
    ((send_message CommState.initState "ghost" MessageType.error "x"
      MessagePriority.high [] none "mid" 3).2).message_queues =
      CommState.initState.message_queues ∧
    ((send_message CommState.initState "ghost" MessageType.error "x"
      MessagePriority.high [] none "mid" 3).2).message_history =
      CommState.initState.message_history ++
        [{ id := "mid", type := MessageType.error,
           priority := MessagePriority.high, sender := "system",
           recipient := "ghost", content := "x", metadata := [],
           timestamp := 3, expires_at := none }] :=
  c8_unregistered_send CommState.initState "ghost" MessageType.error "x"
    MessagePriority.high [] none "mid" 3 (by decide)

/-- C9 (amended): per-recipient delivery is FIFO by arrival order and
ignores priority entirely: `receive` returns the head of the mailbox (the
earliest-arrived pending message) whatever the priorities of the waiting
messages, and `send` appends the new message at the tail of the mailbox
whatever its priority. -/
theorem c9_mailbox_fifo (st : CommState) (a : String) (now : Nat) :
    (∀ (m : Message) (rest : List Message),
        st.message_queues.lookup a = some (m :: rest) →
        m.isExpired now = false →
        (receive_message st a now).1 = some m) ∧
    (∀ (q : List Message) (mt : MessageType) (content : String)
        (priority : MessagePriority) (metadata : List (String × String))
        (expires_at : Option Nat) (fresh_id : String) (tn : Nat),
        st.message_queues.lookup a = some q →
        ((send_message st a mt content priority metadata expires_at fresh_id
          tn).2).message_queues.lookup a =
          some (q ++
            [{ id := fresh_id, type := mt, priority := priority,
               sender := "system", recipient := a, content := content,
               metadata := metadata, timestamp := tn,
               expires_at := expires_at }])) := by
  constructor
  · intro m rest hq hex
    simp only [receive_message, hq, hex, Bool.false_eq_true, if_false]
  · intro q mt content priority metadata expires_at fresh_id tn hq
    have hany : (st.message_queues.any fun p => p.1 = a) = true := by
      rw [any_key_eq_lookup_isSome, hq]; rfl
    have hmap := lookup_map_update st.message_queues a
      (fun l => l ++
        [{ id := fresh_id, type := mt, priority := priority,
           sender := "system", recipient := a, content := content,
           metadata := metadata, timestamp := tn,
           expires_at := expires_at }])
    rw [hq] at hmap
    simp only [send_message, hany, if_true]
    exact hmap

/-- C9 FIFO witness: in `c9_state` the LOW message at the head is the one
returned, and a further send lands at the tail of the mailbox. -/
theorem c9_witness :
    (receive_message c9_state "a" 2).1 = some c9_low ∧
    ((send_message c9_state "a" MessageType.heartbeat "hb"
      MessagePriority.urgent [] none "m3" 4).2).message_queues.lookup "a" =
      some ([c9_low, c9_urgent] ++
        [{ id := "m3", type := MessageType.heartbeat,
           priority := MessagePriority.urgent, sender := "system",
           recipient := "a", content := "hb", metadata := [],
           timestamp := 4, expires_at := none }]) :=
  ⟨(c9_mailbox_fifo c9_state "a" 2).1 c9_low [c9_urgent] (by decide)
      (by decide),
    (c9_mailbox_fifo c9_state "a" 2).2 [c9_low, c9_urgent]
      MessageType.heartbeat "hb" MessagePriority.urgent [] none "m3" 4
      (by decide)⟩

/-- C5: `retry_task` keeps `retry_count ≤ max_retries` invariant; on a
failed task whose `retry_count` equals `max_retries` it returns `false`
and leaves the state unchanged (no re-entry into `pending`); otherwise it
returns `true`, increments `retry_count`, resets the status to `pending`,
clears the error and re-enqueues the task at its original
`priority.value`. -/
theorem c5_retry_respects_max_retries (st : TaskManagerState)
    (task_id : String) :
    (∀ task : TaskInfo, st.tasks.lookup task_id = some task →
        task.status = TaskStatus.failed →
        ((task.retry_count = task.max_retries →
            retry_task st task_id = (false, st)) ∧
         (task.retry_count < task.max_retries →
            (retry_task st task_id).1 = true ∧
            ((retry_task st task_id).2).tasks.lookup task_id =
              some { task with
                retry_count := task.retry_count + 1
                status := TaskStatus.pending
                error := none } ∧
            ((retry_task st task_id).2).task_queue =
              st.task_queue ++ [(task.priority.value, task_id)]))) ∧
    ((∀ p ∈ st.tasks, p.2.retry_count ≤ p.2.max_retries) →
        ∀ p ∈ ((retry_task st task_id).2).tasks,
          p.2.retry_count ≤ p.2.max_retries) := by
  constructor
  · intro task h hf
    constructor
    · intro hmax
      have hge : task.retry_count ≥ task.max_retries := le_of_eq hmax.symm
      simp [retry_task, h, hf, hge]
    · intro hlt
      have hnge : ¬ task.retry_count ≥ task.max_retries := not_le.2 hlt
      refine ⟨?_, ?_, ?_⟩
      · simp [retry_task, h, hf, hnge]
      · have hred : ((retry_task st task_id).2).tasks =
            dictSet st.tasks task_id
              { task with
                retry_count := task.retry_count + 1
                status := TaskStatus.pending
                error := none } := by
          simp [retry_task, h, hf, hnge]
        rw [hred]
        exact lookup_dictSet_self st.tasks task_id _
      · simp [retry_task, h, hf, hnge]
  · intro hinv p hp
    cases h : st.tasks.lookup task_id with
    | none =>
      simp only [retry_task, h] at hp
      exact hinv p hp
    | some task =>
      by_cases hf : task.status = TaskStatus.failed
      · by_cases hge : task.retry_count ≥ task.max_retries
        · have hr : retry_task st task_id = (false, st) := by
            simp [retry_task, h, hf, hge]
          rw [hr] at hp
          exact hinv p hp
        · have hred : ((retry_task st task_id).2).tasks =
              dictSet st.tasks task_id
                { task with
                  retry_count := task.retry_count + 1
                  status := TaskStatus.pending
                  error := none } := by
            simp [retry_task, h, hf, hge]
          rw [hred] at hp
          rcases mem_dictSet hp with hpe | hmem
          · rw [hpe]
            exact Nat.succ_le_of_lt (lt_of_not_ge hge)
          · exact hinv p hmem
      · have hr : retry_task st task_id = (false, st) := by
          simp [retry_task, h, hf]
        rw [hr] at hp
        exact hinv p hp

/-- C5 witness: retrying the failed task of `c5_state` (one retry of three
used) succeeds, bumps `retry_count` to 2, re-enters `pending`, clears the
error and re-enqueues at HIGH priority value 3. -/
theorem c5_witness :
    (retry_task c5_state "t").1 = true ∧
    ((retry_task c5_state "t").2).tasks.lookup "t" =
      some { c5_task with
        retry_count := 2
        status := TaskStatus.pending
        error := none } ∧
    ((retry_task c5_state "t").2).task_queue = [(3, "t")] := by
  have h := ((c5_retry_respects_max_retries c5_state "t").1 c5_task
    (by decide) (by decide)).2 (by decide)
  exact ⟨h.1, h.2.1, h.2.2⟩

/-- C7 (amended): cancelling a task that is already terminal (completed,
failed or cancelled) is a no-op on the state but returns `false` — the
same answer as for an unknown task id — not a success; and cancellation is
idempotent on the state: cancelling twice leaves exactly the state of
cancelling once. -/
theorem c7_cancel_idempotent (st : TaskManagerState) (task_id : String)
    (now now' : Nat) :
    (∀ task : TaskInfo, st.tasks.lookup task_id = some task →
        task.status ∈ [TaskStatus.completed, TaskStatus.failed,
          TaskStatus.cancelled] →
        cancel_task st task_id now = (false, st)) ∧
    ((cancel_task ((cancel_task st task_id now).2) task_id now').2 =
      (cancel_task st task_id now).2) := by
  have hterm : ∀ (t : Nat) (task : TaskInfo),
      st.tasks.lookup task_id = some task →
      task.status ∈ [TaskStatus.completed, TaskStatus.failed,
        TaskStatus.cancelled] →
      cancel_task st task_id t = (false, st) := by
    intro t task h hmem
    simp [cancel_task, h, hmem]
  refine ⟨fun task h hmem => hterm now task h hmem, ?_⟩
  cases h : st.tasks.lookup task_id with
  | none =>
    have hr : cancel_task st task_id now = (false, st) := by
      simp [cancel_task, h]
    rw [hr]
    show (cancel_task st task_id now').2 = st
    simp [cancel_task, h]
  | some task =>
    by_cases hmem : task.status ∈ [TaskStatus.completed, TaskStatus.failed,
        TaskStatus.cancelled]
    · rw [hterm now task h hmem]
      show (cancel_task st task_id now').2 = st
      rw [hterm now' task h hmem]
    · have hr : cancel_task st task_id now =
          (true, update_task_status st task_id TaskStatus.cancelled none
            now) := by
        simp [cancel_task, h, hmem]
      rw [hr]
      have hlook : (update_task_status st task_id TaskStatus.cancelled none
          now).tasks.lookup task_id =
          some { task with
            status := TaskStatus.cancelled
            completed_at := some now } := by
        have hA : ¬ (TaskStatus.cancelled = TaskStatus.executing ∧
            ({ task with status := TaskStatus.cancelled } :
              TaskInfo).started_at = none) := by
          intro hc
          exact absurd hc.1 (by decide)
        have hB : TaskStatus.cancelled ∈ [TaskStatus.completed,
            TaskStatus.failed, TaskStatus.cancelled] := by decide
        simp only [update_task_status, h, if_neg hA, if_pos hB]
        exact lookup_dictSet_self st.tasks task_id _
      have hr2 : cancel_task ((update_task_status st task_id
          TaskStatus.cancelled none now)) task_id now' =
          (false, update_task_status st task_id TaskStatus.cancelled none
            now) := by
        simp [cancel_task, hlook]
      rw [hr2]

/-- C7 witness: cancelling the completed task of `c7w_state` is rejected
with `false` and changes nothing. -/
theorem c7_witness :
    cancel_task c7w_state "t" 4 = (false, c7w_state) :=
  (c7_cancel_idempotent c7w_state "t" 4 4).1 c7w_task (by decide) (by decide)

/-- C6 (amended): `update_task_status` validates nothing.  An unknown task
id is a silent no-op indistinguishable from success (the method has no
result), and for an existing task the requested status — valid transition
or not — is stored unconditionally; `started_at` is recorded on entering
`executing` only when still unset (and a previously recorded `started_at`
is never overwritten), and entering a terminal status records
`completed_at` and decrements the active-task counter. -/
theorem c6_update_status_unvalidated (st : TaskManagerState)
    (task_id : String) (status : TaskStatus) (error : Option String)
    (now : Nat) :
    (st.tasks.lookup task_id = none →
        update_task_status st task_id status error now = st) ∧
    (∀ task : TaskInfo, st.tasks.lookup task_id = some task →
        ((update_task_status st task_id status error now).tasks.lookup
            task_id).map TaskInfo.status = some status ∧
        (status = TaskStatus.executing → task.started_at = none →
          ((update_task_status st task_id status error now).tasks.lookup
              task_id).map TaskInfo.started_at = some (some now)) ∧
        (∀ s : Nat, task.started_at = some s →
          ((update_task_status st task_id status error now).tasks.lookup
              task_id).map TaskInfo.started_at = some (some s)) ∧
        (status ∈ [TaskStatus.completed, TaskStatus.failed,
            TaskStatus.cancelled] →
          ((update_task_status st task_id status error now).tasks.lookup
              task_id).map TaskInfo.completed_at = some (some now) ∧
          (update_task_status st task_id status error now).stats_active_tasks
            = st.stats_active_tasks - 1)) := by
  constructor
  · intro h
    simp [update_task_status, h]
  · intro task h
    by_cases hA : status = TaskStatus.executing ∧
        ({ task with status := status } : TaskInfo).started_at = none
    · refine ⟨?_, ?_, ?_, ?_⟩
      · simp only [update_task_status, h, if_pos hA, lookup_dictSet_self,
          Option.map_some']
        split
        · split
          · rfl
          · rfl
        · rfl
      · intro _ _
        simp only [update_task_status, h, if_pos hA, lookup_dictSet_self,
          Option.map_some']
        split
        · split
          · rfl
          · rfl
        · rfl
      · intro s hs
        have hnone : task.started_at = none := hA.2
        rw [hnone] at hs
        exact absurd hs (by simp)
      · intro hB
        have hexec : status = TaskStatus.executing := hA.1
        rw [hexec] at hB
        exact absurd hB (by decide)
    · by_cases hB : status ∈ [TaskStatus.completed, TaskStatus.failed,
          TaskStatus.cancelled]
      · refine ⟨?_, ?_, ?_, ?_⟩
        · simp only [update_task_status, h, if_neg hA, if_pos hB,
            lookup_dictSet_self, Option.map_some']
          split
          · split
            · rfl
            · rfl
          · rfl
        · intro hst hnone
          exact absurd ⟨hst, hnone⟩ hA
        · intro s hs
          simp only [update_task_status, h, if_neg hA, if_pos hB,
            lookup_dictSet_self, Option.map_some']
          split
          · split
            · exact congrArg some hs
            · exact congrArg some hs
          · exact congrArg some hs
        · intro _
          constructor
          · simp only [update_task_status, h, if_neg hA, if_pos hB,
              lookup_dictSet_self, Option.map_some']
            split
            · split
              · rfl
              · rfl
            · rfl
          · simp only [update_task_status, h, if_neg hA, if_pos hB]
      · refine ⟨?_, ?_, ?_, ?_⟩
        · simp only [update_task_status, h, if_neg hA, if_neg hB,
            lookup_dictSet_self, Option.map_some']
          split
          · split
            · rfl
            · rfl
          · rfl
        · intro hst hnone
          exact absurd ⟨hst, hnone⟩ hA
        · intro s hs
          simp only [update_task_status, h, if_neg hA, if_neg hB,
            lookup_dictSet_self, Option.map_some']
          split
          · split
            · exact congrArg some hs
            · exact congrArg some hs
          · exact congrArg some hs
        · intro hmem
          exact absurd hmem hB

/-- C6 witness: completing the executing task of `c6w_state` stores the
new status, keeps the recorded `started_at`, records `completed_at` and
decrements the active counter. -/
theorem c6_witness :
    ((update_task_status c6w_state "t" TaskStatus.completed none
        7).tasks.lookup "t").map TaskInfo.status =
      some TaskStatus.completed ∧
    ((update_task_status c6w_state "t" TaskStatus.completed none
        7).tasks.lookup "t").map TaskInfo.started_at = some (some 3) ∧
    ((update_task_status c6w_state "t" TaskStatus.completed none
        7).tasks.lookup "t").map TaskInfo.completed_at = some (some 7) ∧
    (update_task_status c6w_state "t" TaskStatus.completed none
        7).stats_active_tasks = c6w_state.stats_active_tasks - 1 := by
  have h := (c6_update_status_unvalidated c6w_state "t" TaskStatus.completed
    none 7).2 c6w_task (by decide)
  exact ⟨h.1, h.2.2.1 3 (by decide), (h.2.2.2 (by decide)).1,
    (h.2.2.2 (by decide)).2⟩

/-- C10: a successful `retry_task` rewrites exactly the `status` (to
`pending`), `retry_count` (incremented) and `error` (cleared) fields of
the stored record — `started_at` and `completed_at` from the failed run,
and every other field, are untouched, and every other task in the
manager is untouched. -/
theorem c10_retry_preserves_timestamps (st : TaskManagerState)
    (task_id : String) (task : TaskInfo) (s c : Nat)
    (h : st.tasks.lookup task_id = some task)
    (hf : task.status = TaskStatus.failed)
    (hlt : task.retry_count < task.max_retries)
    (hs : task.started_at = some s)
    (hc : task.completed_at = some c) :
    ((retry_task st task_id).2).tasks.lookup task_id =
      some { task with
        retry_count := task.retry_count + 1
        status := TaskStatus.pending
        error := none } ∧
    (∀ task' : TaskInfo,
        ((retry_task st task_id).2).tasks.lookup task_id = some task' →
        task'.status = TaskStatus.pending ∧
        task'.started_at = some s ∧ task'.completed_at = some c ∧
        task'.id = task.id ∧ task'.type = task.type ∧
        task'.name = task.name ∧ task'.priority = task.priority ∧
        task'.created_at = task.created_at ∧
        task'.max_retries = task.max_retries ∧
        task'.timeout = task.timeout) ∧
    (∀ k : String, k ≠ task_id →
        ((retry_task st task_id).2).tasks.lookup k = st.tasks.lookup k) := by
  have hnge : ¬ task.retry_count ≥ task.max_retries := not_le.2 hlt
  have hred : ((retry_task st task_id).2).tasks =
      dictSet st.tasks task_id
        { task with
          retry_count := task.retry_count + 1
          status := TaskStatus.pending
          error := none } := by
    simp [retry_task, h, hf, hnge]
  refine ⟨?_, ?_, ?_⟩
  · rw [hred]
    exact lookup_dictSet_self st.tasks task_id _
  · intro task' h'
    rw [hred, lookup_dictSet_self] at h'
    have h'' := Option.some.inj h'
    rw [← h'']
    exact ⟨rfl, hs, hc, rfl, rfl, rfl, rfl, rfl, rfl, rfl⟩
  · intro k hk
    rw [hred]
    exact lookup_dictSet_ne st.tasks task_id k _ hk

/-- C10 witness: retrying the failed task of `c10_state` leaves both of
its timestamps and the unrelated task "u" untouched. -/
theorem c10_witness :
    ((retry_task c10_state "t").2).tasks.lookup "t" =
      some { c10_task with
        retry_count := 1
        status := TaskStatus.pending
        error := none } ∧
    ((retry_task c10_state "t").2).tasks.lookup "u" =
      c10_state.tasks.lookup "u" := by
  have h := c10_retry_preserves_timestamps c10_state "t" c10_task 2 3
    (by decide) (by decide) (by decide) (by decide) (by decide)
  exact ⟨h.1, h.2.2 "u" (by decide)⟩

theorem loadStep_queue (st : BackgroundExecutorState)
    (task : BackgroundTask) :
    (loadStep st task).task_queue = st.task_queue ++
      (if task.status = "pending" then [(task.priority, task.id)]
       else []) := by
  by_cases h : task.status = "pending"
  · simp only [loadStep, if_pos h]
  · simp only [loadStep, if_neg h, List.append_nil]

theorem loadStep_tasks (st : BackgroundExecutorState)
    (task : BackgroundTask) :
    (loadStep st task).tasks = dictSet st.tasks task.id task := by
  by_cases h : task.status = "pending"
  · simp only [loadStep, if_pos h]
  · simp only [loadStep, if_neg h]

theorem foldl_loadStep_queue (rows : List BackgroundTask)
    (st : BackgroundExecutorState) :
    (rows.foldl loadStep st).task_queue = st.task_queue ++
      (rows.filter (fun r => r.status == "pending")).map
        (fun r => (r.priority, r.id)) := by
  induction rows generalizing st with
  | nil => simp
  | cons r t ih =>
    rw [List.foldl_cons, ih, loadStep_queue]
    by_cases h : r.status = "pending"
    · rw [List.filter_cons_of_pos (by simpa using h), if_pos h,
        List.map_cons, List.append_assoc, List.singleton_append]
    · rw [List.filter_cons_of_neg (by simpa using h), if_neg h,
        List.append_nil]

theorem foldl_loadStep_lookup_ne (rows : List BackgroundTask)
    (st : BackgroundExecutorState) (x : String)
    (h : ∀ r ∈ rows, r.id ≠ x) :
    ((rows.foldl loadStep st).tasks).lookup x = st.tasks.lookup x := by
  induction rows generalizing st with
  | nil => rfl
  | cons r t ih =>
    rw [List.foldl_cons]
    rw [ih _ (fun q hq => h q (List.mem_cons_of_mem _ hq))]
    rw [loadStep_tasks]
    exact lookup_dictSet_ne st.tasks r.id x r
      (Ne.symm (h r (List.mem_cons_self _ _)))

theorem foldl_loadStep_lookup_self (rows : List BackgroundTask)
    (st : BackgroundExecutorState) (r : BackgroundTask)
    (hmem : r ∈ rows) (hnd : (rows.map BackgroundTask.id).Nodup) :
    ((rows.foldl loadStep st).tasks).lookup r.id = some r := by
  obtain ⟨l₁, l₂, rfl⟩ := List.append_of_mem hmem
  have hmap : ((l₁.map BackgroundTask.id) ++
      (r.id :: l₂.map BackgroundTask.id)).Nodup := by
    simpa using hnd
  have hnotl₂ : r.id ∉ l₂.map BackgroundTask.id :=
    (List.nodup_cons.1 hmap.of_append_right).1
  have hne : ∀ q ∈ l₂, q.id ≠ r.id := by
    intro q hq hqid
    exact hnotl₂ (hqid ▸ List.mem_map_of_mem _ hq)
  rw [List.foldl_append, List.foldl_cons]
  rw [foldl_loadStep_lookup_ne l₂ _ r.id hne]
  rw [loadStep_tasks]
  exact lookup_dictSet_self _ _ _

theorem countP_eq_one_of_id_unique (l : List BackgroundTask)
    (r : BackgroundTask) (hmem : r ∈ l)
    (hnd : (l.map BackgroundTask.id).Nodup)
    (p : BackgroundTask → Bool) (hpr : p r = true)
    (hpid : ∀ q : BackgroundTask, p q = true → q.id = r.id) :
    l.countP p = 1 := by
  obtain ⟨l₁, l₂, rfl⟩ := List.append_of_mem hmem
  have hmap : ((l₁.map BackgroundTask.id) ++
      (r.id :: l₂.map BackgroundTask.id)).Nodup := by
    simpa using hnd
  have hdisj := List.disjoint_of_nodup_append hmap
  have hnotl₁ : r.id ∉ l₁.map BackgroundTask.id := fun hmemid =>
    hdisj hmemid (List.mem_cons_self _ _)
  have hnotl₂ : r.id ∉ l₂.map BackgroundTask.id :=
    (List.nodup_cons.1 hmap.of_append_right).1
  have h1 : l₁.countP p = 0 := List.countP_eq_zero.2 (fun q hq hpq =>
    hnotl₁ ((hpid q hpq) ▸ List.mem_map_of_mem _ hq))
  have h2 : l₂.countP p = 0 := List.countP_eq_zero.2 (fun q hq hpq =>
    hnotl₂ ((hpid q hpq) ▸ List.mem_map_of_mem _ hq))
  rw [List.countP_append, List.countP_cons, h1, h2, if_pos hpr]

/-- C3 (amended): startup recovery (`_load_persisted_tasks`) loads from
the durable store every record whose status is `pending` or `running`
into the in-memory task dict with its persisted status unchanged; each
`pending` record is re-enqueued exactly once at its stored priority,
while a record found `running` (the spec's "executing") is never
re-marked pending and never re-enqueued — it is not schedulable after the
restart.  Store ids are unique (SQLite PRIMARY KEY). -/
theorem c3_selective_recovery (stored_rows : List BackgroundTask)
    (hnd : (stored_rows.map BackgroundTask.id).Nodup) :
    (∀ r ∈ stored_rows, r.status = "pending" →
        ((background_executor_startup stored_rows).tasks.lookup r.id =
          some r ∧
         (background_executor_startup stored_rows).task_queue.countP
           (fun e => e.2 == r.id) = 1)) ∧
    (∀ r ∈ stored_rows, r.status = "running" →
        ((background_executor_startup stored_rows).tasks.lookup r.id =
          some r ∧
         (background_executor_startup stored_rows).task_queue.countP
           (fun e => e.2 == r.id) = 0)) := by
  have hFsub : List.Sublist
      (stored_rows.filter
        (fun r => r.status = "pending" ∨ r.status = "running"))
      stored_rows :=
    List.filter_sublist _
  have hndF : ((stored_rows.filter
      (fun r => r.status = "pending" ∨ r.status = "running")).map
        BackgroundTask.id).Nodup :=
    hnd.sublist (hFsub.map BackgroundTask.id)
  have hperm : List.Perm
      (List.insertionSort sqlRowOrder
        (stored_rows.filter
          (fun r => r.status = "pending" ∨ r.status = "running")))
      (stored_rows.filter
        (fun r => r.status = "pending" ∨ r.status = "running")) :=
    List.perm_insertionSort _ _
  have hndR : ((List.insertionSort sqlRowOrder
      (stored_rows.filter
        (fun r => r.status = "pending" ∨ r.status = "running"))).map
          BackgroundTask.id).Nodup :=
    (hperm.map BackgroundTask.id).nodup_iff.2 hndF
  have hqueue : (background_executor_startup stored_rows).task_queue =
      ((List.insertionSort sqlRowOrder
        (stored_rows.filter
          (fun r => r.status = "pending" ∨ r.status = "running"))).filter
            (fun r => r.status == "pending")).map
              (fun r => (r.priority, r.id)) := by
    show ((List.insertionSort sqlRowOrder
      (stored_rows.filter
        (fun r => r.status = "pending" ∨ r.status = "running"))).foldl
          loadStep BackgroundExecutorState.initState).task_queue = _
    rw [foldl_loadStep_queue]
    rfl
  constructor
  · intro r hr hp
    have hrF : r ∈ stored_rows.filter
        (fun r => r.status = "pending" ∨ r.status = "running") :=
      List.mem_filter.2 ⟨hr, by simp [hp]⟩
    have hrR : r ∈ List.insertionSort sqlRowOrder
        (stored_rows.filter
          (fun r => r.status = "pending" ∨ r.status = "running")) :=
      hperm.mem_iff.2 hrF
    constructor
    · show ((List.insertionSort sqlRowOrder
        (stored_rows.filter
          (fun r => r.status = "pending" ∨ r.status = "running"))).foldl
            loadStep BackgroundExecutorState.initState).tasks.lookup r.id =
        some r
      exact foldl_loadStep_lookup_self _ _ r hrR hndR
    · rw [hqueue, List.countP_map]
      apply countP_eq_one_of_id_unique _ r
      · exact List.mem_filter.2 ⟨hrR, by simp [hp]⟩
      · exact hndR.sublist ((List.filter_sublist _).map BackgroundTask.id)
      · simp
      · intro q hq
        simpa using hq
  · intro r hr hrun
    have hrF : r ∈ stored_rows.filter
        (fun r => r.status = "pending" ∨ r.status = "running") :=
      List.mem_filter.2 ⟨hr, by simp [hrun]⟩
    have hrR : r ∈ List.insertionSort sqlRowOrder
        (stored_rows.filter
          (fun r => r.status = "pending" ∨ r.status = "running")) :=
      hperm.mem_iff.2 hrF
    constructor
    · show ((List.insertionSort sqlRowOrder
        (stored_rows.filter
          (fun r => r.status = "pending" ∨ r.status = "running"))).foldl
            loadStep BackgroundExecutorState.initState).tasks.lookup r.id =
        some r
      exact foldl_loadStep_lookup_self _ _ r hrR hndR
    · rw [hqueue, List.countP_map]
      apply List.countP_eq_zero.2
      intro q hq hpq
      have hqR : q ∈ List.insertionSort sqlRowOrder
          (stored_rows.filter
            (fun r => r.status = "pending" ∨ r.status = "running")) :=
        (List.mem_filter.1 hq).1
      have hqpend : q.status = "pending" := by
        have hqb := (List.mem_filter.1 hq).2
        simpa using hqb
      have hqid : q.id = r.id := by
        simpa using hpq
      have hqr : q = r := List.inj_on_of_nodup_map hndR hqR hrR hqid
      rw [hqr, hrun] at hqpend
      exact absurd hqpend (by decide)

/-- C3 witness: starting over the two-record store `c3_store`, the pending
record is loaded and schedulable exactly once while the running record is
loaded, still `running`, and never enqueued. -/
theorem c3_witness :
    ((background_executor_startup c3_store).tasks.lookup
        c3_pending_row.id = some c3_pending_row ∧
      (background_executor_startup c3_store).task_queue.countP
        (fun e => e.2 == c3_pending_row.id) = 1) ∧
    ((background_executor_startup c3_store).tasks.lookup
        c3_running_row.id = some c3_running_row ∧
      (background_executor_startup c3_store).task_queue.countP
        (fun e => e.2 == c3_running_row.id) = 0) :=
  ⟨(c3_selective_recovery c3_store (by decide)).1 c3_pending_row
      (by decide) (by decide),
    (c3_selective_recovery c3_store (by decide)).2 c3_running_row
      (by decide) (by decide)⟩

end MAS
